import Mathlib

/-!
A shallow embedding of the baud-rate negotiation core of `baudrate.c`
(pali/linux-baudrate).  Machine integers (`tcflag_t`, `unsigned int`,
the non-negative `int` fields of `struct serial_struct`) are modelled
as `Nat`, with the C complement `~m` rendered as an explicit 32-bit
complement `compl32 m`.  The two preprocessor capabilities of the
source (`BOTHER`/`TCGETS2` extended termios and the `IBSHIFT`
split-rate field) become a record of booleans.  Ioctl reads that the
program inspects are explicit inputs: `none` models a failing
`TIOCGSERIAL` read (the one tolerated failure); `TIOCSSERIAL` and
`TCSETS` writes are modelled as succeeding, their payloads being the
returned state.  The `Bnnn` constants are the asm-generic ones, i.e.
the non-SPARC branch of the source table (the SPARC branch differs
only in the last four table rows).
-/

namespace Baudrate

/-- Constant `B0` from asm/termbits.h; also the not-found sentinel of the table scan. -/
def B0 : Nat := 0o0

def B50 : Nat := 0o1

def B75 : Nat := 0o2

def B110 : Nat := 0o3

def B134 : Nat := 0o4

def B150 : Nat := 0o5

def B200 : Nat := 0o6

def B300 : Nat := 0o7

def B600 : Nat := 0o10

def B1200 : Nat := 0o11

def B1800 : Nat := 0o12

def B2400 : Nat := 0o13

def B4800 : Nat := 0o14

def B9600 : Nat := 0o15

def B19200 : Nat := 0o16

def B38400 : Nat := 0o17

def B57600 : Nat := 0o10001

def B115200 : Nat := 0o10002

def B230400 : Nat := 0o10003

def B460800 : Nat := 0o10004

def B500000 : Nat := 0o10005

def B576000 : Nat := 0o10006

def B921600 : Nat := 0o10007

def B1000000 : Nat := 0o10010

def B1152000 : Nat := 0o10011

def B1500000 : Nat := 0o10012

def B2000000 : Nat := 0o10013

def B2500000 : Nat := 0o10014

def B3000000 : Nat := 0o10015

def B3500000 : Nat := 0o10016

def B4000000 : Nat := 0o10017

/-- The baud-rate bitfield mask of the control-flag word. -/
def CBAUD : Nat := 0o10017

/-- The arbitrary-rate sentinel of the extended encoding. -/
def BOTHER : Nat := 0o10000

/-- Bit offset of the input baud-rate bitfield. -/
def IBSHIFT : Nat := 16

def ASYNC_SPD_HI : Nat := 0x0010

def ASYNC_SPD_VHI : Nat := 0x0020

def ASYNC_SPD_CUST : Nat := 0x0030

def ASYNC_SPD_SHI : Nat := 0x1000

def ASYNC_SPD_WARP : Nat := 0x1010

def ASYNC_SPD_MASK : Nat := 0x1030

/-- Value `(unsigned int)-1`, the sentinel the program prints as `unknown`. -/
def UNKNOWN : Nat := 4294967295

/-- The 32-bit complement: `~m` applied to a 32-bit `tcflag_t`. -/
def compl32 (m : Nat) : Nat := (2 ^ 32 - 1) ^^^ m

/-- The static `map[]` table of (Bnnn constant, integer rate) pairs,
in the source order, taking the non-SPARC (`B2500000` defined) branch. -/
def map : List (Nat × Nat) :=
  [(B0, 0), (B50, 50), (B75, 75), (B110, 110), (B134, 134), (B150, 150),
   (B200, 200), (B300, 300), (B600, 600), (B1200, 1200), (B1800, 1800),
   (B2400, 2400), (B4800, 4800), (B9600, 9600), (B19200, 19200),
   (B38400, 38400), (B57600, 57600), (B115200, 115200), (B230400, 230400),
   (B460800, 460800), (B500000, 500000), (B576000, 576000),
   (B921600, 921600), (B1000000, 1000000), (B1152000, 1152000),
   (B1500000, 1500000), (B2000000, 2000000), (B2500000, 2500000),
   (B3000000, 3000000), (B3500000, 3500000), (B4000000, 4000000)]

/-- Function `map_n_to_bn`: linear scan of `map[]` by the integer rate, `B0` if absent. -/
def map_n_to_bn (n : Nat) : Nat :=
  match map.find? (fun p => p.2 == n) with
  | some p => p.1
  | none => B0

/-- Function `map_bn_to_n`: inverse scan by the Bnnn constant, `(unsigned int)-1` if absent. -/
def map_bn_to_n (bn : Nat) : Nat :=
  match map.find? (fun p => p.1 == bn) with
  | some p => p.2
  | none => UNKNOWN

/-- The fields of `struct serial_struct` the program touches. -/
structure SerialStruct where
  flags : Nat
  baud_base : Nat
  custom_divisor : Nat
  deriving DecidableEq

/-- The fields of `struct termios` / `struct termios2` the program touches
(`c_ospeed`/`c_ispeed` are meaningful only under the extended capability). -/
structure Termios where
  c_cflag : Nat
  c_ospeed : Nat
  c_ispeed : Nat
  deriving DecidableEq

/-- The preprocessor capabilities of the source as a runtime record:
`bother` = `BOTHER`/`TCGETS2`/`TCSETS2` (extended termios),
`ibshift` = `IBSHIFT` (split-rate input bitfield). -/
structure Caps where
  bother : Bool
  ibshift : Bool
  deriving DecidableEq

/-- Function `get_spd_B38400_alias`: resolve the rate that `ASYNC_SPD_*` flags alias
`B38400` to.  `none` models a failing `TIOCGSERIAL` read. -/
def get_spd_B38400_alias (ser? : Option SerialStruct) : Nat :=
  match ser? with
  | none => 38400
  | some ser =>
    if ser.flags &&& ASYNC_SPD_MASK = 0 then 38400
    else if ser.flags &&& ASYNC_SPD_MASK = ASYNC_SPD_CUST ∧ ser.custom_divisor = 0 then
      38400
    else if ser.flags &&& ASYNC_SPD_MASK = ASYNC_SPD_HI then 56000
    else if ser.flags &&& ASYNC_SPD_MASK = ASYNC_SPD_VHI then 115200
    else if ser.flags &&& ASYNC_SPD_MASK = ASYNC_SPD_SHI then 230400
    else if ser.flags &&& ASYNC_SPD_MASK = ASYNC_SPD_WARP then 460800
    else if ser.flags &&& ASYNC_SPD_MASK = ASYNC_SPD_CUST then
      (ser.baud_base + ser.custom_divisor / 2) / ser.custom_divisor
    else UNKNOWN

/-- The sideband write of the legacy alias install (main, lines 150-152):
select `ASYNC_SPD_CUST` and set `custom_divisor := (baud_base + n/2) / n`. -/
def install_spd_cust (ser : SerialStruct) (n : Nat) : SerialStruct :=
  { flags := ser.flags &&& compl32 ASYNC_SPD_MASK ||| ASYNC_SPD_CUST
    baud_base := ser.baud_base
    custom_divisor := (ser.baud_base + n / 2) / n }

/-- The sideband write that clears a live alias (main, lines 165-166). -/
def clear_spd_alias (ser : SerialStruct) : SerialStruct :=
  { flags := ser.flags &&& compl32 ASYNC_SPD_MASK
    baud_base := ser.baud_base
    custom_divisor := 0 }

/-- The error exits of the configure path, by their diagnostic. -/
inductive ConfigError where
  /-- Diagnostic `baud rate %u is unsupported` (legacy path, `TIOCGSERIAL` failed). -/
  | RateUnsupported (n : Nat)
  /-- Diagnostic `input baud rate %u is unsupported`. -/
  | InputRateUnsupported (n : Nat)
  /-- Diagnostic `input baud rate cannot be zero`. -/
  | ZeroInputRate
  /-- Diagnostic `split baud rates are unsupported`. -/
  | SplitRatesUnsupported
  /-- Only emitted by the guarded variant `configure_checked`, never by `configure`. -/
  | DivByZero
  deriving DecidableEq

/-- What a successful configure leaves on the device: the termios snapshot
written via `TCSETS`/`TCSETS2` and the sideband after any `TIOCSSERIAL`
write (the unchanged input sideband when none was issued). -/
structure ConfigResult where
  tio : Termios
  ser? : Option SerialStruct
  deriving DecidableEq

/-- Output-rate encoding choice with its sideband effect (main, lines 131-174). -/
def choose_output_bn (caps : Caps) (ser? : Option SerialStruct) (n : Nat) :
    Except ConfigError (Nat × Option SerialStruct) :=
  let bn := map_n_to_bn n
  if n ≠ 0 ∧ bn = B0 then
    if caps.bother then .ok (BOTHER, ser?)
    else
      match ser? with
      | none => .error (.RateUnsupported n)
      | some ser => .ok (B38400, some (install_spd_cust ser n))
  else if n = 38400 then
    match ser? with
    | some ser =>
      if ser.flags &&& ASYNC_SPD_MASK ≠ 0 then .ok (bn, some (clear_spd_alias ser))
      else .ok (bn, ser?)
    | none => .ok (bn, ser?)
  else .ok (bn, ser?)

/-- Input-rate encoding choice for an explicit third argument
(main, lines 183-207); `cflag1` is the control-flag word after the
output bits were installed. -/
def choose_input_bn (caps : Caps) (nOut : Nat) (cflag1 : Nat) (n2 : Nat) :
    Except ConfigError Nat :=
  let bn2 := map_n_to_bn n2
  let step : Except ConfigError Nat :=
    if n2 ≠ 0 ∧ bn2 = B0 then
      if caps.bother then .ok BOTHER
      else if n2 ≠ nOut then .error (.InputRateUnsupported n2)
      else .ok B38400
    else .ok bn2
  match step with
  | .error e => .error e
  | .ok bn3 =>
    if cflag1 &&& CBAUD ≠ B0 ∧ n2 = 0 then
      if caps.bother then .ok BOTHER
      else .error .ZeroInputRate
    else .ok bn3

/-- Installing the input direction into the snapshot (main, lines 209-235):
split encoding when the chosen input encoding differs from the installed
output encoding, mirror (`B0` slot) when they coincide. -/
def set_input_field (caps : Caps) (cflag1 ospeed1 ispeed0 n3 bn3 : Nat) :
    Except ConfigError Termios :=
  if cflag1 &&& CBAUD ≠ bn3 ∨ (caps.bother = true ∧ bn3 = BOTHER ∧ ospeed1 ≠ n3) then
    if caps.ibshift then
      .ok { c_cflag := cflag1 &&& compl32 (CBAUD <<< IBSHIFT) ||| bn3 <<< IBSHIFT
            c_ospeed := ospeed1
            c_ispeed := if caps.bother then n3 else ispeed0 }
    else .error .SplitRatesUnsupported
  else if caps.ibshift then
    .ok { c_cflag := cflag1 &&& compl32 (CBAUD <<< IBSHIFT) ||| B0 <<< IBSHIFT
          c_ospeed := ospeed1
          c_ispeed := if caps.bother then 0 else ispeed0 }
  else .ok { c_cflag := cflag1, c_ospeed := ospeed1, c_ispeed := ispeed0 }

/-- The configure path of `main` (lines 130-247): choose the output
encoding (with its sideband effect), install it, choose and install the
input encoding, and return the snapshot written via the set-ioctl
together with the final sideband.  `tio0` is the `TCGETS` snapshot,
`ser?` the `TIOCGSERIAL` result (`none` = that ioctl fails), `nOut` the
second argument, `nIn?` the optional third argument. -/
def configure (caps : Caps) (tio0 : Termios) (ser? : Option SerialStruct)
    (nOut : Nat) (nIn? : Option Nat) : Except ConfigError ConfigResult :=
  match choose_output_bn caps ser? nOut with
  | .error e => .error e
  | .ok (bn1, ser1) =>
    let cflag1 := tio0.c_cflag &&& compl32 CBAUD ||| bn1
    let ospeed1 := if caps.bother then nOut else tio0.c_ospeed
    let inStage : Except ConfigError (Nat × Nat) :=
      match nIn? with
      | none => .ok (nOut, bn1)
      | some n2 =>
        match choose_input_bn caps nOut cflag1 n2 with
        | .error e => .error e
        | .ok bn3 => .ok (n2, bn3)
    match inStage with
    | .error e => .error e
    | .ok (n3, bn3) =>
      match set_input_field caps cflag1 ospeed1 tio0.c_ispeed n3 bn3 with
      | .error e => .error e
      | .ok tio => .ok { tio := tio, ser? := ser1 }

/-- Deriving the effective output rate from a snapshot (main, lines 262-278). -/
def effective_output (caps : Caps) (tio : Termios) (ser? : Option SerialStruct) : Nat :=
  let bn := tio.c_cflag &&& CBAUD
  let n := if caps.bother then tio.c_ospeed else map_bn_to_n bn
  if bn = B38400 then get_spd_B38400_alias ser? else n

/-- Deriving the effective input rate from a snapshot (main, lines 280-298):
the shifted slot when split encoding exists, falling back to the output
slot when it holds `B0`. -/
def effective_input (caps : Caps) (tio : Termios) (ser? : Option SerialStruct) : Nat :=
  let bn :=
    if caps.ibshift then
      let s := (tio.c_cflag >>> IBSHIFT) &&& CBAUD
      if s = B0 then tio.c_cflag &&& CBAUD else s
    else tio.c_cflag &&& CBAUD
  let n := if caps.bother then tio.c_ispeed else map_bn_to_n bn
  if bn = B38400 then get_spd_B38400_alias ser? else n

/-- Variant of `install_spd_cust` with its division guarded: `none` when the divisor
computation would divide by zero. -/
def install_spd_cust_checked (ser : SerialStruct) (n : Nat) : Option SerialStruct :=
  if n = 0 then none
  else
    some { flags := ser.flags &&& compl32 ASYNC_SPD_MASK ||| ASYNC_SPD_CUST
           baud_base := ser.baud_base
           custom_divisor := (ser.baud_base + n / 2) / n }

/-- Variant of `get_spd_B38400_alias` with its division guarded: `none` when the
`ASYNC_SPD_CUST` branch would divide by zero. -/
def get_spd_B38400_alias_checked (ser? : Option SerialStruct) : Option Nat :=
  match ser? with
  | none => some 38400
  | some ser =>
    if ser.flags &&& ASYNC_SPD_MASK = 0 then some 38400
    else if ser.flags &&& ASYNC_SPD_MASK = ASYNC_SPD_CUST ∧ ser.custom_divisor = 0 then
      some 38400
    else if ser.flags &&& ASYNC_SPD_MASK = ASYNC_SPD_HI then some 56000
    else if ser.flags &&& ASYNC_SPD_MASK = ASYNC_SPD_VHI then some 115200
    else if ser.flags &&& ASYNC_SPD_MASK = ASYNC_SPD_SHI then some 230400
    else if ser.flags &&& ASYNC_SPD_MASK = ASYNC_SPD_WARP then some 460800
    else if ser.flags &&& ASYNC_SPD_MASK = ASYNC_SPD_CUST then
      if ser.custom_divisor = 0 then none
      else some ((ser.baud_base + ser.custom_divisor / 2) / ser.custom_divisor)
    else some UNKNOWN

/-- Variant of `choose_output_bn` with the division of the legacy installer guarded. -/
def choose_output_bn_checked (caps : Caps) (ser? : Option SerialStruct) (n : Nat) :
    Except ConfigError (Nat × Option SerialStruct) :=
  let bn := map_n_to_bn n
  if n ≠ 0 ∧ bn = B0 then
    if caps.bother then .ok (BOTHER, ser?)
    else
      match ser? with
      | none => .error (.RateUnsupported n)
      | some ser =>
        match install_spd_cust_checked ser n with
        | none => .error .DivByZero
        | some ser2 => .ok (B38400, some ser2)
  else if n = 38400 then
    match ser? with
    | some ser =>
      if ser.flags &&& ASYNC_SPD_MASK ≠ 0 then .ok (bn, some (clear_spd_alias ser))
      else .ok (bn, ser?)
    | none => .ok (bn, ser?)
  else .ok (bn, ser?)

/-- Variant of `configure` with the division of the legacy installer guarded. -/
def configure_checked (caps : Caps) (tio0 : Termios) (ser? : Option SerialStruct)
    (nOut : Nat) (nIn? : Option Nat) : Except ConfigError ConfigResult :=
  match choose_output_bn_checked caps ser? nOut with
  | .error e => .error e
  | .ok (bn1, ser1) =>
    let cflag1 := tio0.c_cflag &&& compl32 CBAUD ||| bn1
    let ospeed1 := if caps.bother then nOut else tio0.c_ospeed
    let inStage : Except ConfigError (Nat × Nat) :=
      match nIn? with
      | none => .ok (nOut, bn1)
      | some n2 =>
        match choose_input_bn caps nOut cflag1 n2 with
        | .error e => .error e
        | .ok bn3 => .ok (n2, bn3)
    match inStage with
    | .error e => .error e
    | .ok (n3, bn3) =>
      match set_input_field caps cflag1 ospeed1 tio0.c_ispeed n3 bn3 with
      | .error e => .error e
      | .ok tio => .ok { tio := tio, ser? := ser1 }

deriving instance DecidableEq for Except

/-- A value below `2 ^ k` has no bit at or above position `k`. -/
theorem testBit_of_lt (m k i : Nat) (hm : m < 2 ^ k) (hi : k ≤ i) :
    m.testBit i = false :=
  Nat.testBit_lt_two_pow (lt_of_lt_of_le hm (Nat.pow_le_pow_right (by norm_num) hi))

/-- A set bit of a value below `2 ^ k` sits below position `k`. -/
theorem lt_of_testBit_true (m k i : Nat) (hm : m < 2 ^ k) (h : m.testBit i = true) :
    i < k := by
  by_contra hge
  rw [testBit_of_lt m k i hm (by omega)] at h
  exact Bool.false_ne_true h

/-- Bit view of the 32-bit complement. -/
theorem testBit_compl32 (m i : Nat) :
    (compl32 m).testBit i = (decide (i < 32) != m.testBit i) := by
  rw [compl32, Nat.testBit_xor, Nat.testBit_two_pow_sub_one]

/-- Clear-then-set reads back the set value: `(x & ~m | b) & m = b`
whenever `b` lies inside the mask `m`. -/
theorem setField_get (x m b : Nat) (hm : m < 2 ^ 32) (hb : b &&& m = b) :
    (x &&& compl32 m ||| b) &&& m = b := by
  apply Nat.eq_of_testBit_eq
  intro i
  have hbi := congrArg (fun t => t.testBit i) hb
  simp only [Nat.testBit_and] at hbi
  by_cases hmi : m.testBit i = true
  · have hi : i < 32 := lt_of_testBit_true m 32 i hm hmi
    simp [Nat.testBit_and, Nat.testBit_or, testBit_compl32, hmi, hi]
  · simp only [Bool.not_eq_true] at hmi
    rw [hmi, Bool.and_false] at hbi
    simp [Nat.testBit_and, hmi, ← hbi]

/-- Clear-then-set leaves a disjoint field untouched. -/
theorem setField_other (y m2 b2 m : Nat) (hm : m < 2 ^ 32)
    (h1 : m2 &&& m = 0) (h2 : b2 &&& m = 0) :
    (y &&& compl32 m2 ||| b2) &&& m = y &&& m := by
  apply Nat.eq_of_testBit_eq
  intro i
  have h1i := congrArg (fun t => t.testBit i) h1
  have h2i := congrArg (fun t => t.testBit i) h2
  simp only [Nat.testBit_and, Nat.zero_testBit] at h1i h2i
  by_cases hmi : m.testBit i = true
  · have hi : i < 32 := lt_of_testBit_true m 32 i hm hmi
    rw [hmi, Bool.and_true] at h1i h2i
    simp [Nat.testBit_and, Nat.testBit_or, testBit_compl32, hmi, hi, h1i, h2i]
  · simp only [Bool.not_eq_true] at hmi
    simp [Nat.testBit_and, hmi]

/-- Reading the 16-shifted field after clear-then-set on it returns the
set value, for a sub-`2 ^ 16` mask holding `b`. -/
theorem getShifted (y m b : Nat) (hm : m < 2 ^ 16) (hb : b &&& m = b) :
    ((y &&& compl32 (m <<< 16) ||| b <<< 16) >>> 16) &&& m = b := by
  apply Nat.eq_of_testBit_eq
  intro i
  have hbi := congrArg (fun t => t.testBit i) hb
  simp only [Nat.testBit_and] at hbi
  by_cases hmi : m.testBit i = true
  · have hi : i < 16 := lt_of_testBit_true m 16 i hm hmi
    simp [Nat.testBit_and, Nat.testBit_or, Nat.testBit_shiftRight,
      Nat.testBit_shiftLeft, testBit_compl32, hmi]
    omega
  · simp only [Bool.not_eq_true] at hmi
    rw [hmi, Bool.and_false] at hbi
    simp [Nat.testBit_and, hmi, ← hbi]

/-- A 16-shifted value is disjoint from any sub-`2 ^ 16` mask. -/
theorem shiftLeft16_land (b m : Nat) (hm : m < 2 ^ 16) : b <<< 16 &&& m = 0 := by
  apply Nat.eq_of_testBit_eq
  intro i
  simp only [Nat.testBit_and, Nat.testBit_shiftLeft, Nat.zero_testBit]
  by_cases hmi : m.testBit i = true
  · have hi : i < 16 := lt_of_testBit_true m 16 i hm hmi
    have h16 : ¬ i ≥ 16 := by omega
    simp [h16]
  · simp only [Bool.not_eq_true] at hmi
    simp [hmi]

/-- Every constant in the table lies inside `CBAUD` and is neither
`BOTHER` nor in the shifted input field. -/
theorem map_entry_props : ∀ p ∈ map, p.1 &&& CBAUD = p.1 ∧ p.1 ≠ BOTHER := by decide

/-- The table scan yields a constant inside `CBAUD`. -/
theorem map_n_to_bn_land (n : Nat) : map_n_to_bn n &&& CBAUD = map_n_to_bn n := by
  unfold map_n_to_bn
  cases h : map.find? (fun p => p.2 == n) with
  | none => decide
  | some p => exact (map_entry_props p (List.mem_of_find?_eq_some h)).1

/-- The table scan never yields `BOTHER`. -/
theorem map_n_to_bn_ne_BOTHER (n : Nat) : map_n_to_bn n ≠ BOTHER := by
  unfold map_n_to_bn
  cases h : map.find? (fun p => p.2 == n) with
  | none => decide
  | some p => exact (map_entry_props p (List.mem_of_find?_eq_some h)).2

/-- Rate `0` scans to the genuine `B0` entry. -/
theorem map_n_to_bn_zero : map_n_to_bn 0 = B0 := by decide

/-- A rate whose scan is not the sentinel is itself non-zero. -/
theorem ne_zero_of_map_n_to_bn_ne (n : Nat) (h : map_n_to_bn n ≠ B0) : n ≠ 0 := by
  intro hn
  rw [hn, map_n_to_bn_zero] at h
  exact h rfl

/-- A standard non-zero rate keeps its table constant through the output
stage, whatever the sideband does. -/
theorem choose_output_ok_std (caps : Caps) (ser? : Option SerialStruct) (n : Nat)
    (h : map_n_to_bn n ≠ B0) :
    ∃ s1, choose_output_bn caps ser? n = .ok (map_n_to_bn n, s1) := by
  simp only [choose_output_bn]
  rw [if_neg (fun hc => h hc.2)]
  by_cases h38 : n = 38400
  · rw [if_pos h38]
    cases ser? with
    | none => exact ⟨none, rfl⟩
    | some ser =>
      dsimp only
      by_cases hf : ser.flags &&& ASYNC_SPD_MASK ≠ 0
      · exact ⟨some (clear_spd_alias ser), by rw [if_pos hf]⟩
      · exact ⟨some ser, by rw [if_neg hf]⟩
  · rw [if_neg h38]
    exact ⟨ser?, rfl⟩

/-- A standard non-zero input rate keeps its table constant through the
input stage. -/
theorem choose_input_ok_std (caps : Caps) (nOut cflag1 n2 : Nat)
    (h : map_n_to_bn n2 ≠ B0) :
    choose_input_bn caps nOut cflag1 n2 = .ok (map_n_to_bn n2) := by
  have hn2 : n2 ≠ 0 := ne_zero_of_map_n_to_bn_ne n2 h
  simp only [choose_input_bn]
  rw [if_neg (fun hc => h hc.2)]
  exact if_neg (fun hc => hn2 hc.2)

/-- The mirror branch of the input install: taken when the chosen input
encoding coincides with the installed output encoding. -/
theorem set_input_field_mirror (caps : Caps) (cflag1 o i n3 bn3 : Nat)
    (h1 : cflag1 &&& CBAUD = bn3)
    (h2 : caps.bother = true → bn3 = BOTHER → o = n3) :
    set_input_field caps cflag1 o i n3 bn3 =
      if caps.ibshift then
        .ok { c_cflag := cflag1 &&& compl32 (CBAUD <<< IBSHIFT) ||| B0 <<< IBSHIFT
              c_ospeed := o
              c_ispeed := if caps.bother then 0 else i }
      else .ok { c_cflag := cflag1, c_ospeed := o, c_ispeed := i } := by
  simp only [set_input_field]
  rw [if_neg]
  intro hc
  rcases hc with hc | ⟨hb, hbn, hne⟩
  · exact hc h1
  · exact hne (h2 hb hbn)

/-- The split branch of the input install: taken when the encodings differ. -/
theorem set_input_field_split (caps : Caps) (cflag1 o i n3 bn3 : Nat)
    (h : cflag1 &&& CBAUD ≠ bn3 ∨ (caps.bother = true ∧ bn3 = BOTHER ∧ o ≠ n3)) :
    set_input_field caps cflag1 o i n3 bn3 =
      if caps.ibshift then
        .ok { c_cflag := cflag1 &&& compl32 (CBAUD <<< IBSHIFT) ||| bn3 <<< IBSHIFT
              c_ospeed := o
              c_ispeed := if caps.bother then n3 else i }
      else .error .SplitRatesUnsupported := by
  simp only [set_input_field]
  rw [if_pos h]

/-- Claim C2: for a sideband with an active alias flag the resolver
returns 56000 for `SPD_HI`, 115200 for `SPD_VHI`, 230400 for `SPD_SHI`,
460800 for `SPD_WARP`, the rounded quotient
`(baud_base + custom_divisor/2) / custom_divisor` for `SPD_CUST` with a
non-zero divisor, and the unknown sentinel for any other non-zero value
of `flags & SPD_MASK`. -/
theorem c2_alias_resolver_table (ser : SerialStruct) :
    (ser.flags &&& ASYNC_SPD_MASK = ASYNC_SPD_HI →
      get_spd_B38400_alias (some ser) = 56000) ∧
    (ser.flags &&& ASYNC_SPD_MASK = ASYNC_SPD_VHI →
      get_spd_B38400_alias (some ser) = 115200) ∧
    (ser.flags &&& ASYNC_SPD_MASK = ASYNC_SPD_SHI →
      get_spd_B38400_alias (some ser) = 230400) ∧
    (ser.flags &&& ASYNC_SPD_MASK = ASYNC_SPD_WARP →
      get_spd_B38400_alias (some ser) = 460800) ∧
    (ser.flags &&& ASYNC_SPD_MASK = ASYNC_SPD_CUST → ser.custom_divisor ≠ 0 →
      get_spd_B38400_alias (some ser) =
        (ser.baud_base + ser.custom_divisor / 2) / ser.custom_divisor) ∧
    (ser.flags &&& ASYNC_SPD_MASK ≠ 0 →
      ser.flags &&& ASYNC_SPD_MASK ≠ ASYNC_SPD_HI →
      ser.flags &&& ASYNC_SPD_MASK ≠ ASYNC_SPD_VHI →
      ser.flags &&& ASYNC_SPD_MASK ≠ ASYNC_SPD_SHI →
      ser.flags &&& ASYNC_SPD_MASK ≠ ASYNC_SPD_WARP →
      ser.flags &&& ASYNC_SPD_MASK ≠ ASYNC_SPD_CUST →
      get_spd_B38400_alias (some ser) = UNKNOWN) := by
  refine ⟨?_, ?_, ?_, ?_, ?_, ?_⟩
  · intro h
    simp only [ASYNC_SPD_MASK, ASYNC_SPD_HI] at h
    simp [get_spd_B38400_alias, h, ASYNC_SPD_HI, ASYNC_SPD_VHI, ASYNC_SPD_SHI,
      ASYNC_SPD_WARP, ASYNC_SPD_CUST, ASYNC_SPD_MASK]
  · intro h
    simp only [ASYNC_SPD_MASK, ASYNC_SPD_VHI] at h
    simp [get_spd_B38400_alias, h, ASYNC_SPD_HI, ASYNC_SPD_VHI, ASYNC_SPD_SHI,
      ASYNC_SPD_WARP, ASYNC_SPD_CUST, ASYNC_SPD_MASK]
  · intro h
    simp only [ASYNC_SPD_MASK, ASYNC_SPD_SHI] at h
    simp [get_spd_B38400_alias, h, ASYNC_SPD_HI, ASYNC_SPD_VHI, ASYNC_SPD_SHI,
      ASYNC_SPD_WARP, ASYNC_SPD_CUST, ASYNC_SPD_MASK]
  · intro h
    simp only [ASYNC_SPD_MASK, ASYNC_SPD_WARP] at h
    simp [get_spd_B38400_alias, h, ASYNC_SPD_HI, ASYNC_SPD_VHI, ASYNC_SPD_SHI,
      ASYNC_SPD_WARP, ASYNC_SPD_CUST, ASYNC_SPD_MASK]
  · intro h hd
    simp only [ASYNC_SPD_MASK, ASYNC_SPD_CUST] at h
    simp [get_spd_B38400_alias, h, hd, ASYNC_SPD_HI, ASYNC_SPD_VHI, ASYNC_SPD_SHI,
      ASYNC_SPD_WARP, ASYNC_SPD_CUST, ASYNC_SPD_MASK]
  · intro h0 h1 h2 h3 h4 h5
    simp [get_spd_B38400_alias, h0, h1, h2, h3, h4, h5]

/-- Witness for C2 at concrete sidebands, one per active flag. -/
theorem c2_witness :
    get_spd_B38400_alias (some ⟨16, 0, 0⟩) = 56000 ∧
    get_spd_B38400_alias (some ⟨32, 0, 0⟩) = 115200 ∧
    get_spd_B38400_alias (some ⟨4096, 0, 0⟩) = 230400 ∧
    get_spd_B38400_alias (some ⟨4112, 0, 0⟩) = 460800 ∧
    get_spd_B38400_alias (some ⟨48, 115200, 461⟩) = (115200 + 461 / 2) / 461 ∧
    get_spd_B38400_alias (some ⟨4128, 0, 0⟩) = UNKNOWN :=
  ⟨(c2_alias_resolver_table ⟨16, 0, 0⟩).1 (by decide),
   (c2_alias_resolver_table ⟨32, 0, 0⟩).2.1 (by decide),
   (c2_alias_resolver_table ⟨4096, 0, 0⟩).2.2.1 (by decide),
   (c2_alias_resolver_table ⟨4112, 0, 0⟩).2.2.2.1 (by decide),
   (c2_alias_resolver_table ⟨48, 115200, 461⟩).2.2.2.2.1 (by decide) (by decide),
   (c2_alias_resolver_table ⟨4128, 0, 0⟩).2.2.2.2.2 (by decide) (by decide)
     (by decide) (by decide) (by decide) (by decide)⟩

/-- Claim C3: a rate `n ≥ 1` installed through the legacy alias path
yields a sideband on which the resolver returns
`(baud_base + d/2) / d` with `d = (baud_base + n/2) / n`; the configure
path on a non-extended kernel indeed installs exactly that sideband.
The hypothesis `d ≠ 0` is the definedness of the claimed quotient. -/
theorem c3_alias_round_trip (caps : Caps) (tio0 : Termios) (ser : SerialStruct) (n : Nat)
    (hn : 1 ≤ n) (hd : (ser.baud_base + n / 2) / n ≠ 0)
    (hstd : map_n_to_bn n = B0) (hbother : caps.bother = false) :
    get_spd_B38400_alias (some (install_spd_cust ser n)) =
      (ser.baud_base + ((ser.baud_base + n / 2) / n) / 2) / ((ser.baud_base + n / 2) / n) ∧
    ∃ tw, configure caps tio0 (some ser) n none = .ok ⟨tw, some (install_spd_cust ser n)⟩ := by
  have hmask : (install_spd_cust ser n).flags &&& ASYNC_SPD_MASK = ASYNC_SPD_CUST := by
    exact setField_get ser.flags ASYNC_SPD_MASK ASYNC_SPD_CUST (by decide) (by decide)
  constructor
  · have hdiv : (install_spd_cust ser n).custom_divisor = (ser.baud_base + n / 2) / n := rfl
    have hbb : (install_spd_cust ser n).baud_base = ser.baud_base := rfl
    simp only [ASYNC_SPD_MASK, ASYNC_SPD_CUST] at hmask
    simp [get_spd_B38400_alias, hmask, hdiv, hbb, hd, ASYNC_SPD_HI, ASYNC_SPD_VHI,
      ASYNC_SPD_SHI, ASYNC_SPD_WARP, ASYNC_SPD_CUST, ASYNC_SPD_MASK]
  · have hco : choose_output_bn caps (some ser) n = .ok (B38400, some (install_spd_cust ser n)) := by
      simp only [choose_output_bn]
      rw [if_pos ⟨by omega, hstd⟩, hbother]
      rfl
    have hb38 : (tio0.c_cflag &&& compl32 CBAUD ||| B38400) &&& CBAUD = B38400 :=
      setField_get tio0.c_cflag CBAUD B38400 (by decide) (by decide)
    simp only [configure, hco, hbother]
    rw [set_input_field_mirror caps _ _ _ n B38400 hb38
      (by intro hb; rw [hbother] at hb; exact absurd hb (by decide))]
    cases hib : caps.ibshift with
    | true => exact ⟨_, by rw [if_pos rfl]⟩
    | false => exact ⟨_, by rw [if_neg (by decide)]⟩

/-- Witness for C3: `baud_base = 115200`, `n = 250`, divisor `461`. -/
theorem c3_witness :
    get_spd_B38400_alias (some (install_spd_cust ⟨0, 115200, 0⟩ 250)) =
      (115200 + ((115200 + 250 / 2) / 250) / 2) / ((115200 + 250 / 2) / 250) ∧
    ∃ tw, configure ⟨false, false⟩ ⟨0, 0, 0⟩ (some ⟨0, 115200, 0⟩) 250 none =
      .ok ⟨tw, some (install_spd_cust ⟨0, 115200, 0⟩ 250)⟩ :=
  c3_alias_round_trip ⟨false, false⟩ ⟨0, 0, 0⟩ ⟨0, 115200, 0⟩ 250
    (by decide) (by decide) (by decide) rfl

/-- Counterexample to C5 as stated: an active `SPD_CUST` alias whose
rounded quotient happens to be 38400 also makes the resolver return the
literal 38400, outside the three no-active-alias cases. -/
theorem c5_counterexample :
    get_spd_B38400_alias (some ⟨48, 38400, 1⟩) = 38400 ∧
    (some (⟨48, 38400, 1⟩ : SerialStruct) : Option SerialStruct) ≠ none ∧
    (⟨48, 38400, 1⟩ : SerialStruct).flags &&& ASYNC_SPD_MASK ≠ 0 ∧
    ¬((⟨48, 38400, 1⟩ : SerialStruct).flags &&& ASYNC_SPD_MASK = ASYNC_SPD_CUST ∧
      (⟨48, 38400, 1⟩ : SerialStruct).custom_divisor = 0) := by decide

/-- Claim C5 (amended): the resolver returns the literal 38400 exactly in
the three no-active-alias cases — failed sideband read, `SPD_MASK`
clear, `SPD_CUST` with zero divisor — or when an active `SPD_CUST`
divisor computes a rounded quotient of exactly 38400. -/
theorem c5_literal_38400 (ser? : Option SerialStruct) :
    get_spd_B38400_alias ser? = 38400 ↔
      ser? = none ∨
      ∃ ser, ser? = some ser ∧
        (ser.flags &&& ASYNC_SPD_MASK = 0 ∨
         (ser.flags &&& ASYNC_SPD_MASK = ASYNC_SPD_CUST ∧ ser.custom_divisor = 0) ∨
         (ser.flags &&& ASYNC_SPD_MASK = ASYNC_SPD_CUST ∧ ser.custom_divisor ≠ 0 ∧
          (ser.baud_base + ser.custom_divisor / 2) / ser.custom_divisor = 38400)) := by
  cases ser? with
  | none => simp [get_spd_B38400_alias]
  | some ser =>
    simp only [get_spd_B38400_alias, Option.some.injEq, reduceCtorEq, false_or]
    constructor
    · intro h
      refine ⟨ser, rfl, ?_⟩
      by_cases h1 : ser.flags &&& ASYNC_SPD_MASK = 0
      · exact Or.inl h1
      · rw [if_neg h1] at h
        by_cases h2 : ser.flags &&& ASYNC_SPD_MASK = ASYNC_SPD_CUST ∧ ser.custom_divisor = 0
        · exact Or.inr (Or.inl h2)
        · rw [if_neg h2] at h
          by_cases h3 : ser.flags &&& ASYNC_SPD_MASK = ASYNC_SPD_HI
          · rw [if_pos h3] at h
            exact absurd h (by decide)
          · rw [if_neg h3] at h
            by_cases h4 : ser.flags &&& ASYNC_SPD_MASK = ASYNC_SPD_VHI
            · rw [if_pos h4] at h
              exact absurd h (by decide)
            · rw [if_neg h4] at h
              by_cases h5 : ser.flags &&& ASYNC_SPD_MASK = ASYNC_SPD_SHI
              · rw [if_pos h5] at h
                exact absurd h (by decide)
              · rw [if_neg h5] at h
                by_cases h6 : ser.flags &&& ASYNC_SPD_MASK = ASYNC_SPD_WARP
                · rw [if_pos h6] at h
                  exact absurd h (by decide)
                · rw [if_neg h6] at h
                  by_cases h7 : ser.flags &&& ASYNC_SPD_MASK = ASYNC_SPD_CUST
                  · rw [if_pos h7] at h
                    exact Or.inr (Or.inr ⟨h7, fun hz => h2 ⟨h7, hz⟩, h⟩)
                  · rw [if_neg h7] at h
                    exact absurd h (by decide)
    · rintro ⟨ser2, hser2, hcase⟩
      cases hser2
      rcases hcase with h1 | ⟨h2, hz⟩ | ⟨h2, hz, hq⟩
      · rw [if_pos h1]
      · rw [if_neg (by rw [h2]; decide), if_pos ⟨h2, hz⟩]
      · rw [if_neg (by rw [h2]; decide), if_neg (by intro hc; exact hz hc.2),
          if_neg (by rw [h2]; decide), if_neg (by rw [h2]; decide),
          if_neg (by rw [h2]; decide), if_neg (by rw [h2]; decide), if_pos h2]
        exact hq

/-- Claim C9 counterexample: on an extended configuration with `BOTHER`
in the output slot and `B0` in the shifted input slot, the reported
input rate is `c_ispeed`, not the rate derived from the output
direction (`c_ospeed`). -/
theorem c9_counterexample :
    ((⟨4096, 100, 200⟩ : Termios).c_cflag >>> IBSHIFT) &&& CBAUD = B0 ∧
    effective_input ⟨true, true⟩ ⟨4096, 100, 200⟩ none = 200 ∧
    effective_output ⟨true, true⟩ ⟨4096, 100, 200⟩ none = 100 ∧
    (200 : Nat) ≠ 100 := by decide

/-- Claim C9 (amended): with split encoding, a `B0` input slot makes the
input derivation fall back to the output slot before alias resolution;
hence on a non-extended configuration the reported input rate equals
the reported output rate, and on any configuration a `B38400` output
slot makes both directions report the answer of the alias resolver.  (On an
extended configuration with a non-`B38400` output slot the reported
input is `c_ispeed`, which need not match the output direction.) -/
theorem c9_input_fallback (caps : Caps) (tio : Termios) (ser? : Option SerialStruct)
    (hib : caps.ibshift = true)
    (hslot : (tio.c_cflag >>> IBSHIFT) &&& CBAUD = B0) :
    (caps.bother = false →
      effective_input caps tio ser? = effective_output caps tio ser?) ∧
    (tio.c_cflag &&& CBAUD = B38400 →
      effective_input caps tio ser? = get_spd_B38400_alias ser? ∧
      effective_output caps tio ser? = get_spd_B38400_alias ser?) := by
  constructor
  · intro hb
    simp [effective_input, effective_output, hib, hslot, hb]
  · intro h38
    constructor
    · simp [effective_input, hib, hslot, h38]
    · simp [effective_output, h38]

/-- Witness for C9 at a concrete snapshot: `B38400` output slot, `B0`
input slot, `SPD_VHI` sideband, non-extended capabilities. -/
theorem c9_witness :
    effective_input ⟨false, true⟩ ⟨15, 0, 0⟩ (some ⟨32, 0, 0⟩) =
      effective_output ⟨false, true⟩ ⟨15, 0, 0⟩ (some ⟨32, 0, 0⟩) ∧
    effective_input ⟨false, true⟩ ⟨15, 0, 0⟩ (some ⟨32, 0, 0⟩) =
      get_spd_B38400_alias (some ⟨32, 0, 0⟩) ∧
    effective_output ⟨false, true⟩ ⟨15, 0, 0⟩ (some ⟨32, 0, 0⟩) =
      get_spd_B38400_alias (some ⟨32, 0, 0⟩) :=
  ⟨(c9_input_fallback ⟨false, true⟩ ⟨15, 0, 0⟩ (some ⟨32, 0, 0⟩) rfl (by decide)).1 rfl,
   (c9_input_fallback ⟨false, true⟩ ⟨15, 0, 0⟩ (some ⟨32, 0, 0⟩) rfl (by decide)).2 (by decide)⟩

/-- The guarded output stage agrees with the output stage of the source. -/
theorem choose_output_bn_checked_eq (caps : Caps) (ser? : Option SerialStruct) (n : Nat) :
    choose_output_bn_checked caps ser? n = choose_output_bn caps ser? n := by
  simp only [choose_output_bn_checked, choose_output_bn]
  by_cases h1 : n ≠ 0 ∧ map_n_to_bn n = B0
  · rw [if_pos h1, if_pos h1]
    by_cases hb : caps.bother
    · rw [if_pos hb, if_pos hb]
    · rw [if_neg hb, if_neg hb]
      cases ser? with
      | none => rfl
      | some ser =>
        simp only [install_spd_cust_checked, install_spd_cust]
        rw [if_neg h1.1]
  · rw [if_neg h1, if_neg h1]

/-- Claim C10: both divisions of the program are guarded — the alias
resolver reaches its quotient only with a non-zero `custom_divisor`,
and the legacy installer reaches its divisor computation only with a
non-zero requested rate: the division-guarded variants coincide with
the originals everywhere, never taking their division-by-zero exits. -/
theorem c10_division_guards :
    (∀ ser?, get_spd_B38400_alias_checked ser? = some (get_spd_B38400_alias ser?)) ∧
    (∀ caps tio0 ser? nOut nIn?,
      configure_checked caps tio0 ser? nOut nIn? = configure caps tio0 ser? nOut nIn?) := by
  constructor
  · intro s
    cases s with
    | none => rfl
    | some ser =>
      simp only [get_spd_B38400_alias_checked, get_spd_B38400_alias]
      split_ifs with h1 h2 h3 h4 h5 h6 h7 h8 <;> try rfl
      exact absurd ⟨h7, h8⟩ h2
  · intro caps tio0 ser? nOut nIn?
    simp only [configure_checked, configure, choose_output_bn_checked_eq]

/-- Lemma `getShifted` re-stated at the `IBSHIFT` offset. -/
theorem getShifted_ib (y m b : Nat) (hm : m < 2 ^ 16) (hb : b &&& m = b) :
    ((y &&& compl32 (m <<< IBSHIFT) ||| b <<< IBSHIFT) >>> IBSHIFT) &&& m = b :=
  getShifted y m b hm hb

/-- Lemma `shiftLeft16_land` re-stated at the `IBSHIFT` offset. -/
theorem shiftLeftIB_land (b m : Nat) (hm : m < 2 ^ 16) : b <<< IBSHIFT &&& m = 0 :=
  shiftLeft16_land b m hm

/-- The output stage succeeds only with the table constant (when the rate
is standard or zero), `BOTHER` (non-standard, extended) or `B38400`
(non-standard, legacy). -/
theorem choose_output_cases (caps : Caps) (ser? : Option SerialStruct) (n bn1 : Nat)
    (s1 : Option SerialStruct)
    (h : choose_output_bn caps ser? n = .ok (bn1, s1)) :
    ((n = 0 ∨ map_n_to_bn n ≠ B0) ∧ bn1 = map_n_to_bn n) ∨
    (map_n_to_bn n = B0 ∧ n ≠ 0 ∧ caps.bother = true ∧ bn1 = BOTHER) ∨
    (map_n_to_bn n = B0 ∧ n ≠ 0 ∧ caps.bother = false ∧ bn1 = B38400) := by
  simp only [choose_output_bn] at h
  by_cases h1 : n ≠ 0 ∧ map_n_to_bn n = B0
  · rw [if_pos h1] at h
    cases hb : caps.bother with
    | true =>
      rw [hb] at h
      simp only [if_true] at h
      obtain ⟨h2, -⟩ := Prod.mk.injEq .. ▸ Except.ok.inj h
      exact Or.inr (Or.inl ⟨h1.2, h1.1, rfl, h2.symm⟩)
    | false =>
      rw [hb] at h
      simp only [Bool.false_eq_true, if_false] at h
      cases ser? with
      | none => exact absurd h (by simp)
      | some ser =>
        dsimp only at h
        obtain ⟨h2, -⟩ := Prod.mk.injEq .. ▸ Except.ok.inj h
        exact Or.inr (Or.inr ⟨h1.2, h1.1, rfl, h2.symm⟩)
  · rw [if_neg h1] at h
    have hn : n = 0 ∨ map_n_to_bn n ≠ B0 := by
      by_cases hz : n = 0
      · exact Or.inl hz
      · exact Or.inr fun hm => h1 ⟨hz, hm⟩
    by_cases h38 : n = 38400
    · rw [if_pos h38] at h
      cases ser? with
      | none =>
        obtain ⟨h2, -⟩ := Prod.mk.injEq .. ▸ Except.ok.inj h
        exact Or.inl ⟨hn, h2.symm⟩
      | some ser =>
        dsimp only at h
        by_cases hf : ser.flags &&& ASYNC_SPD_MASK ≠ 0
        · rw [if_pos hf] at h
          obtain ⟨h2, -⟩ := Prod.mk.injEq .. ▸ Except.ok.inj h
          exact Or.inl ⟨hn, h2.symm⟩
        · rw [if_neg hf] at h
          obtain ⟨h2, -⟩ := Prod.mk.injEq .. ▸ Except.ok.inj h
          exact Or.inl ⟨hn, h2.symm⟩
    · rw [if_neg h38] at h
      obtain ⟨h2, -⟩ := Prod.mk.injEq .. ▸ Except.ok.inj h
      exact Or.inl ⟨hn, h2.symm⟩

/-- Requesting the output rate again as input rate reproduces the output
encoding through the input stage. -/
theorem choose_input_same (caps : Caps) (n cflag1 bn1 : Nat)
    (hslot : cflag1 &&& CBAUD = bn1)
    (hcases : ((n = 0 ∨ map_n_to_bn n ≠ B0) ∧ bn1 = map_n_to_bn n) ∨
      (map_n_to_bn n = B0 ∧ n ≠ 0 ∧ caps.bother = true ∧ bn1 = BOTHER) ∨
      (map_n_to_bn n = B0 ∧ n ≠ 0 ∧ caps.bother = false ∧ bn1 = B38400)) :
    choose_input_bn caps n cflag1 n = .ok bn1 := by
  rcases hcases with ⟨hz, hc⟩ | ⟨hm, hn, hb, hc⟩ | ⟨hm, hn, hb, hc⟩
  · rcases hz with hz | hm
    · subst hz
      subst hc
      rw [map_n_to_bn_zero] at hslot
      simp [choose_input_bn, hslot]
    · rw [choose_input_ok_std caps n cflag1 n hm, hc]
  · subst hc
    simp [choose_input_bn, hm, hn, hb]
  · subst hc
    simp [choose_input_bn, hm, hn, hb]

/-- A zero input rate with a live output slot errors out on non-extended
configurations. -/
theorem choose_input_zero (caps : Caps) (nOut cflag1 : Nat)
    (hslot : cflag1 &&& CBAUD ≠ B0) (hb : caps.bother = false) :
    choose_input_bn caps nOut cflag1 0 = .error .ZeroInputRate := by
  simp [choose_input_bn, hslot, hb]

/-- A zero input rate with a live output slot becomes `BOTHER` on
extended configurations. -/
theorem choose_input_zero_bother (caps : Caps) (nOut cflag1 : Nat)
    (hslot : cflag1 &&& CBAUD ≠ B0) (hb : caps.bother = true) :
    choose_input_bn caps nOut cflag1 0 = .ok BOTHER := by
  simp [choose_input_bn, hslot, hb]

/-- A successful input install never disturbs the output bitfield or the
output speed: the written word agrees with `cflag1` on `CBAUD`. -/
theorem set_input_ok_out_slot (caps : Caps) (cflag1 o i n3 bn3 : Nat) (tio : Termios)
    (h : set_input_field caps cflag1 o i n3 bn3 = .ok tio) :
    tio.c_cflag &&& CBAUD = cflag1 &&& CBAUD ∧ tio.c_ospeed = o := by
  by_cases h1 : cflag1 &&& CBAUD ≠ bn3 ∨ (caps.bother = true ∧ bn3 = BOTHER ∧ o ≠ n3)
  · rw [set_input_field_split caps cflag1 o i n3 bn3 h1] at h
    cases hib : caps.ibshift with
    | true =>
      rw [hib, if_pos rfl] at h
      obtain rfl := Except.ok.inj h
      refine ⟨?_, rfl⟩
      exact setField_other cflag1 (CBAUD <<< IBSHIFT) (bn3 <<< IBSHIFT) CBAUD (by decide)
        (by decide) (shiftLeftIB_land bn3 CBAUD (by decide))
    | false =>
      rw [hib, if_neg Bool.false_ne_true] at h
      exact absurd h (by simp)
  · have h1a : cflag1 &&& CBAUD = bn3 := by
      by_contra hne
      exact h1 (Or.inl hne)
    have h1b : caps.bother = true → bn3 = BOTHER → o = n3 := by
      intro hb hbn
      by_contra hne
      exact h1 (Or.inr ⟨hb, hbn, hne⟩)
    rw [set_input_field_mirror caps cflag1 o i n3 bn3 h1a h1b] at h
    cases hib : caps.ibshift with
    | true =>
      rw [hib, if_pos rfl] at h
      obtain rfl := Except.ok.inj h
      refine ⟨?_, rfl⟩
      exact setField_other cflag1 (CBAUD <<< IBSHIFT) (B0 <<< IBSHIFT) CBAUD (by decide)
        (by decide) (shiftLeftIB_land B0 CBAUD (by decide))
    | false =>
      rw [hib, if_neg Bool.false_ne_true] at h
      obtain rfl := Except.ok.inj h
      exact ⟨rfl, rfl⟩

/-- With the split-rate field available, a successful input install
leaves the shifted slot holding either the chosen input constant (split
branch) or `B0` with coinciding encodings (mirror branch). -/
theorem set_input_ok_in_slot (caps : Caps) (cflag1 o i n3 bn3 : Nat) (tio : Termios)
    (hib : caps.ibshift = true) (hsub : bn3 &&& CBAUD = bn3)
    (h : set_input_field caps cflag1 o i n3 bn3 = .ok tio) :
    (tio.c_cflag >>> IBSHIFT) &&& CBAUD = bn3 ∨
    ((tio.c_cflag >>> IBSHIFT) &&& CBAUD = B0 ∧ cflag1 &&& CBAUD = bn3) := by
  by_cases h1 : cflag1 &&& CBAUD ≠ bn3 ∨ (caps.bother = true ∧ bn3 = BOTHER ∧ o ≠ n3)
  · rw [set_input_field_split caps cflag1 o i n3 bn3 h1, hib, if_pos rfl] at h
    obtain rfl := Except.ok.inj h
    exact Or.inl (getShifted_ib cflag1 CBAUD bn3 (by decide) hsub)
  · have h1a : cflag1 &&& CBAUD = bn3 := by
      by_contra hne
      exact h1 (Or.inl hne)
    have h1b : caps.bother = true → bn3 = BOTHER → o = n3 := by
      intro hb hbn
      by_contra hne
      exact h1 (Or.inr ⟨hb, hbn, hne⟩)
    rw [set_input_field_mirror caps cflag1 o i n3 bn3 h1a h1b, hib, if_pos rfl] at h
    obtain rfl := Except.ok.inj h
    exact Or.inr ⟨getShifted_ib cflag1 CBAUD B0 (by decide) (by decide), h1a⟩

/-- Eliminate a successful `configure` into its three stages. -/
theorem configure_ok_elim (caps : Caps) (tio0 : Termios) (ser? : Option SerialStruct)
    (nOut : Nat) (nIn? : Option Nat) (r : ConfigResult)
    (hok : configure caps tio0 ser? nOut nIn? = .ok r) :
    ∃ bn1 n3 bn3,
      choose_output_bn caps ser? nOut = .ok (bn1, r.ser?) ∧
      ((nIn? = none ∧ n3 = nOut ∧ bn3 = bn1) ∨
       (∃ n2, nIn? = some n2 ∧ n3 = n2 ∧
         choose_input_bn caps nOut (tio0.c_cflag &&& compl32 CBAUD ||| bn1) n2 = .ok bn3)) ∧
      set_input_field caps (tio0.c_cflag &&& compl32 CBAUD ||| bn1)
        (if caps.bother then nOut else tio0.c_ospeed) tio0.c_ispeed n3 bn3 = .ok r.tio := by
  cases hco : choose_output_bn caps ser? nOut with
  | error e =>
    simp only [configure, hco] at hok
    exact absurd hok (by simp)
  | ok p =>
    obtain ⟨bn1, s1⟩ := p
    cases nIn? with
    | none =>
      simp only [configure, hco] at hok
      cases hsi : set_input_field caps (tio0.c_cflag &&& compl32 CBAUD ||| bn1)
          (if caps.bother then nOut else tio0.c_ospeed) tio0.c_ispeed nOut bn1 with
      | error e =>
        simp only [hsi] at hok
        exact absurd hok (by simp)
      | ok tio =>
        simp only [hsi] at hok
        obtain rfl := Except.ok.inj hok
        exact ⟨bn1, nOut, bn1, rfl, Or.inl ⟨rfl, rfl, rfl⟩, hsi⟩
    | some n2 =>
      simp only [configure, hco] at hok
      cases hci : choose_input_bn caps nOut (tio0.c_cflag &&& compl32 CBAUD ||| bn1) n2 with
      | error e =>
        simp only [hci] at hok
        exact absurd hok (by simp)
      | ok bn3 =>
        simp only [hci] at hok
        cases hsi : set_input_field caps (tio0.c_cflag &&& compl32 CBAUD ||| bn1)
            (if caps.bother then nOut else tio0.c_ospeed) tio0.c_ispeed n2 bn3 with
        | error e =>
          simp only [hsi] at hok
          exact absurd hok (by simp)
        | ok tio =>
          simp only [hsi] at hok
          obtain rfl := Except.ok.inj hok
          exact ⟨bn1, n2, bn3, rfl, Or.inr ⟨n2, rfl, rfl, hci⟩, hsi⟩

/-- Counterexample to C1 as stated: requesting out = in = 9600 with split
encoding installs `B0` in the shifted input field, not `B9600`, so the
input direction does not receive the table constant. -/
theorem c1_counterexample :
    configure ⟨true, true⟩ ⟨0, 0, 0⟩ none 9600 (some 9600) = .ok ⟨⟨13, 9600, 0⟩, none⟩ ∧
    map_n_to_bn 9600 ≠ B0 ∧
    ((13 : Nat) >>> IBSHIFT) &&& CBAUD ≠ map_n_to_bn 9600 := by decide

/-- Claim C1 (amended): for a requested rate with a standard non-sentinel
encoding, the output bitfield of the written snapshot holds exactly the
table constant (never `BOTHER`, even with extended termios); the shifted
input bitfield holds the table constant of the input rate or `B0` (when the
encodings coincide, the mirror), and never `BOTHER`. -/
theorem c1_encoding_preference (caps : Caps) (tio0 : Termios) (ser? : Option SerialStruct)
    (nOut : Nat) (nIn? : Option Nat) (r : ConfigResult)
    (hout : map_n_to_bn nOut ≠ B0)
    (hok : configure caps tio0 ser? nOut nIn? = .ok r) :
    r.tio.c_cflag &&& CBAUD = map_n_to_bn nOut ∧
    map_n_to_bn nOut ≠ BOTHER ∧
    (∀ nIn, nIn? = some nIn → map_n_to_bn nIn ≠ B0 → caps.ibshift = true →
      (map_n_to_bn nIn ≠ map_n_to_bn nOut →
        (r.tio.c_cflag >>> IBSHIFT) &&& CBAUD = map_n_to_bn nIn) ∧
      (map_n_to_bn nIn = map_n_to_bn nOut →
        (r.tio.c_cflag >>> IBSHIFT) &&& CBAUD = B0) ∧
      (r.tio.c_cflag >>> IBSHIFT) &&& CBAUD ≠ BOTHER) := by
  obtain ⟨bn1, n3, bn3, hco, hstage, hsi⟩ := configure_ok_elim caps tio0 ser? nOut nIn? r hok
  obtain ⟨s1, hco2⟩ := choose_output_ok_std caps ser? nOut hout
  rw [hco2] at hco
  have hbn1 : bn1 = map_n_to_bn nOut := (congrArg Prod.fst (Except.ok.inj hco)).symm
  subst hbn1
  have hcf : (tio0.c_cflag &&& compl32 CBAUD ||| map_n_to_bn nOut) &&& CBAUD =
      map_n_to_bn nOut :=
    setField_get tio0.c_cflag CBAUD (map_n_to_bn nOut) (by decide) (map_n_to_bn_land nOut)
  have hout_slot := set_input_ok_out_slot caps _ _ _ n3 bn3 r.tio hsi
  refine ⟨?_, map_n_to_bn_ne_BOTHER nOut, ?_⟩
  · rw [hout_slot.1, hcf]
  · intro nIn hIn hstd hib
    have hbn3 : bn3 = map_n_to_bn nIn := by
      rcases hstage with ⟨hnone, -, -⟩ | ⟨n2, hn2, hn3, hci⟩
      · rw [hIn] at hnone
        exact absurd hnone (by simp)
      · rw [hIn] at hn2
        obtain rfl := Option.some.inj hn2
        rw [choose_input_ok_std caps nOut _ nIn hstd] at hci
        exact (Except.ok.inj hci).symm
    subst hbn3
    by_cases heq : map_n_to_bn nIn = map_n_to_bn nOut
    · have h1 : (tio0.c_cflag &&& compl32 CBAUD ||| map_n_to_bn nOut) &&& CBAUD =
          map_n_to_bn nIn := by
        rw [hcf, heq]
      have h2 : caps.bother = true → map_n_to_bn nIn = BOTHER →
          (if caps.bother then nOut else tio0.c_ospeed) = n3 := by
        intro _ hbn
        exact absurd hbn (map_n_to_bn_ne_BOTHER nIn)
      rw [set_input_field_mirror caps _ _ _ n3 (map_n_to_bn nIn) h1 h2, hib,
        if_pos rfl] at hsi
      have htio := Except.ok.inj hsi
      have hslot : (r.tio.c_cflag >>> IBSHIFT) &&& CBAUD = B0 := by
        rw [← htio]
        exact getShifted_ib _ CBAUD B0 (by decide) (by decide)
      refine ⟨fun hne => absurd heq hne, fun _ => hslot, ?_⟩
      rw [hslot]
      decide
    · have hcond : (tio0.c_cflag &&& compl32 CBAUD ||| map_n_to_bn nOut) &&& CBAUD ≠
          map_n_to_bn nIn := by
        rw [hcf]
        exact fun hc => heq hc.symm
      rw [set_input_field_split caps _ _ _ n3 (map_n_to_bn nIn) (Or.inl hcond), hib,
        if_pos rfl] at hsi
      have htio := Except.ok.inj hsi
      have hslot : (r.tio.c_cflag >>> IBSHIFT) &&& CBAUD = map_n_to_bn nIn := by
        rw [← htio]
        exact getShifted_ib _ CBAUD (map_n_to_bn nIn) (by decide) (map_n_to_bn_land nIn)
      refine ⟨fun _ => hslot, fun he => absurd he heq, ?_⟩
      rw [hslot]
      exact map_n_to_bn_ne_BOTHER nIn

/-- Witness for C1 at out 9600, in 19200, full capabilities. -/
theorem c1_witness :
    (⟨⟨917517, 9600, 19200⟩, none⟩ : ConfigResult).tio.c_cflag &&& CBAUD =
      map_n_to_bn 9600 ∧
    map_n_to_bn 9600 ≠ BOTHER ∧
    (∀ nIn, (some 19200 : Option Nat) = some nIn → map_n_to_bn nIn ≠ B0 →
      (⟨true, true⟩ : Caps).ibshift = true →
      (map_n_to_bn nIn ≠ map_n_to_bn 9600 →
        ((⟨⟨917517, 9600, 19200⟩, none⟩ : ConfigResult).tio.c_cflag >>> IBSHIFT) &&&
          CBAUD = map_n_to_bn nIn) ∧
      (map_n_to_bn nIn = map_n_to_bn 9600 →
        ((⟨⟨917517, 9600, 19200⟩, none⟩ : ConfigResult).tio.c_cflag >>> IBSHIFT) &&&
          CBAUD = B0) ∧
      ((⟨⟨917517, 9600, 19200⟩, none⟩ : ConfigResult).tio.c_cflag >>> IBSHIFT) &&& CBAUD ≠
        BOTHER) :=
  c1_encoding_preference ⟨true, true⟩ ⟨0, 0, 0⟩ none 9600 (some 19200)
    ⟨⟨917517, 9600, 19200⟩, none⟩ (by decide) (by decide)

/-- Claim C4: requesting the literal 38400 on a device whose sideband has
an active `SPD_MASK` makes configure write back a sideband with the mask
cleared and a zero divisor (the sideband write precedes the termios
install in the source). -/
theorem c4_alias_clearing (caps : Caps) (tio0 : Termios) (ser : SerialStruct)
    (nIn? : Option Nat) (r : ConfigResult)
    (hflags : ser.flags &&& ASYNC_SPD_MASK ≠ 0)
    (hok : configure caps tio0 (some ser) 38400 nIn? = .ok r) :
    r.ser? = some (clear_spd_alias ser) ∧
    (clear_spd_alias ser).flags &&& ASYNC_SPD_MASK = 0 ∧
    (clear_spd_alias ser).custom_divisor = 0 := by
  obtain ⟨bn1, n3, bn3, hco, -, -⟩ := configure_ok_elim caps tio0 (some ser) 38400 nIn? r hok
  have hco2 : choose_output_bn caps (some ser) 38400 =
      .ok (B38400, some (clear_spd_alias ser)) := by
    simp [choose_output_bn, hflags, show map_n_to_bn 38400 = B38400 from by decide,
      B38400, B0]
  rw [hco2] at hco
  have hser : r.ser? = some (clear_spd_alias ser) :=
    (congrArg Prod.snd (Except.ok.inj hco)).symm
  refine ⟨hser, ?_, rfl⟩
  have h0 := setField_get ser.flags ASYNC_SPD_MASK 0 (by decide) (by decide)
  rw [Nat.or_zero] at h0
  exact h0

/-- Witness for C4: a live `SPD_HI` sideband cleared by a 38400 request. -/
theorem c4_witness :
    (⟨⟨15, 0, 0⟩, some ⟨0, 0, 0⟩⟩ : ConfigResult).ser? =
      some (clear_spd_alias ⟨16, 0, 5⟩) ∧
    (clear_spd_alias ⟨16, 0, 5⟩).flags &&& ASYNC_SPD_MASK = 0 ∧
    (clear_spd_alias ⟨16, 0, 5⟩).custom_divisor = 0 :=
  c4_alias_clearing ⟨false, false⟩ ⟨0, 0, 0⟩ ⟨16, 0, 5⟩ none
    ⟨⟨15, 0, 0⟩, some ⟨0, 0, 0⟩⟩ (by decide) (by decide)

/-- Counterexample to C7 as stated: with extended termios but no split
field, input 0 against output 9600 fails with `SplitRatesUnsupported`,
not success. -/
theorem c7_counterexample :
    configure ⟨true, false⟩ ⟨0, 0, 0⟩ none 9600 (some 0) =
      .error .SplitRatesUnsupported ∧
    ConfigError.SplitRatesUnsupported ≠ ConfigError.ZeroInputRate := by decide

/-- Claim C7 (amended): a zero input rate with a non-zero output rate
fails with `ZeroInputRate` exactly when extended encoding is
unavailable; with extended encoding it needs the split field too —
without it the request fails `SplitRatesUnsupported`, with it the
request succeeds carrying `BOTHER` in the input slot and `ispeed = 0`
(the explicit-field mirror). -/
theorem c7_zero_input (caps : Caps) (tio0 : Termios) (ser : SerialStruct) (nOut : Nat)
    (hn : nOut ≠ 0) :
    (caps.bother = false →
      configure caps tio0 (some ser) nOut (some 0) = .error .ZeroInputRate) ∧
    (caps.bother = true → caps.ibshift = false →
      configure caps tio0 (some ser) nOut (some 0) = .error .SplitRatesUnsupported) ∧
    (caps.bother = true → caps.ibshift = true →
      ∃ r, configure caps tio0 (some ser) nOut (some 0) = .ok r ∧
        r.tio.c_ispeed = 0 ∧ (r.tio.c_cflag >>> IBSHIFT) &&& CBAUD = BOTHER) := by
  refine ⟨?_, ?_, ?_⟩
  · intro hb
    by_cases hbn : map_n_to_bn nOut = B0
    · have hco : choose_output_bn caps (some ser) nOut =
          .ok (B38400, some (install_spd_cust ser nOut)) := by
        simp [choose_output_bn, hn, hbn, hb]
      have hcf : (tio0.c_cflag &&& compl32 CBAUD ||| B38400) &&& CBAUD = B38400 :=
        setField_get tio0.c_cflag CBAUD B38400 (by decide) (by decide)
      have hci := choose_input_zero caps nOut
        (tio0.c_cflag &&& compl32 CBAUD ||| B38400) (by rw [hcf]; decide) hb
      simp only [configure, hco, hci]
    · obtain ⟨s1, hco⟩ := choose_output_ok_std caps (some ser) nOut hbn
      have hcf : (tio0.c_cflag &&& compl32 CBAUD ||| map_n_to_bn nOut) &&& CBAUD =
          map_n_to_bn nOut :=
        setField_get tio0.c_cflag CBAUD (map_n_to_bn nOut) (by decide)
          (map_n_to_bn_land nOut)
      have hci := choose_input_zero caps nOut
        (tio0.c_cflag &&& compl32 CBAUD ||| map_n_to_bn nOut) (by rw [hcf]; exact hbn) hb
      simp only [configure, hco, hci]
  · intro hb hib
    by_cases hbn : map_n_to_bn nOut = B0
    · have hco : choose_output_bn caps (some ser) nOut = .ok (BOTHER, some ser) := by
        simp [choose_output_bn, hn, hbn, hb]
      have hcf : (tio0.c_cflag &&& compl32 CBAUD ||| BOTHER) &&& CBAUD = BOTHER :=
        setField_get tio0.c_cflag CBAUD BOTHER (by decide) (by decide)
      have hci := choose_input_zero_bother caps nOut
        (tio0.c_cflag &&& compl32 CBAUD ||| BOTHER) (by rw [hcf]; decide) hb
      simp only [configure, hco, hci]
      rw [set_input_field_split caps _ _ _ 0 BOTHER
        (Or.inr ⟨hb, rfl, by rw [hb, if_pos rfl]; exact hn⟩)]
      rw [hib, if_neg Bool.false_ne_true]
    · obtain ⟨s1, hco⟩ := choose_output_ok_std caps (some ser) nOut hbn
      have hcf : (tio0.c_cflag &&& compl32 CBAUD ||| map_n_to_bn nOut) &&& CBAUD =
          map_n_to_bn nOut :=
        setField_get tio0.c_cflag CBAUD (map_n_to_bn nOut) (by decide)
          (map_n_to_bn_land nOut)
      have hci := choose_input_zero_bother caps nOut
        (tio0.c_cflag &&& compl32 CBAUD ||| map_n_to_bn nOut) (by rw [hcf]; exact hbn) hb
      simp only [configure, hco, hci]
      rw [set_input_field_split caps _ _ _ 0 BOTHER
        (Or.inl (by rw [hcf]; exact map_n_to_bn_ne_BOTHER nOut))]
      rw [hib, if_neg Bool.false_ne_true]
  · intro hb hib
    by_cases hbn : map_n_to_bn nOut = B0
    · have hco : choose_output_bn caps (some ser) nOut = .ok (BOTHER, some ser) := by
        simp [choose_output_bn, hn, hbn, hb]
      have hcf : (tio0.c_cflag &&& compl32 CBAUD ||| BOTHER) &&& CBAUD = BOTHER :=
        setField_get tio0.c_cflag CBAUD BOTHER (by decide) (by decide)
      have hci := choose_input_zero_bother caps nOut
        (tio0.c_cflag &&& compl32 CBAUD ||| BOTHER) (by rw [hcf]; decide) hb
      simp only [configure, hco, hci]
      rw [set_input_field_split caps _ _ _ 0 BOTHER
        (Or.inr ⟨hb, rfl, by rw [hb, if_pos rfl]; exact hn⟩)]
      rw [hib, if_pos rfl]
      refine ⟨_, rfl, ?_, ?_⟩
      · simp [hb]
      · exact getShifted_ib _ CBAUD BOTHER (by decide) (by decide)
    · obtain ⟨s1, hco⟩ := choose_output_ok_std caps (some ser) nOut hbn
      have hcf : (tio0.c_cflag &&& compl32 CBAUD ||| map_n_to_bn nOut) &&& CBAUD =
          map_n_to_bn nOut :=
        setField_get tio0.c_cflag CBAUD (map_n_to_bn nOut) (by decide)
          (map_n_to_bn_land nOut)
      have hci := choose_input_zero_bother caps nOut
        (tio0.c_cflag &&& compl32 CBAUD ||| map_n_to_bn nOut) (by rw [hcf]; exact hbn) hb
      simp only [configure, hco, hci]
      rw [set_input_field_split caps _ _ _ 0 BOTHER
        (Or.inl (by rw [hcf]; exact map_n_to_bn_ne_BOTHER nOut))]
      rw [hib, if_pos rfl]
      refine ⟨_, rfl, ?_, ?_⟩
      · simp [hb]
      · exact getShifted_ib _ CBAUD BOTHER (by decide) (by decide)

/-- Witness for C7: both halves at output 9600 — no extended encoding
errors `ZeroInputRate`; full capabilities succeed with `BOTHER`
mirrored. -/
theorem c7_witness :
    configure ⟨false, false⟩ ⟨0, 0, 0⟩ (some ⟨0, 0, 0⟩) 9600 (some 0) =
      .error .ZeroInputRate ∧
    configure ⟨true, false⟩ ⟨0, 0, 0⟩ (some ⟨0, 0, 0⟩) 9600 (some 0) =
      .error .SplitRatesUnsupported ∧
    ∃ r, configure ⟨true, true⟩ ⟨0, 0, 0⟩ (some ⟨0, 0, 0⟩) 9600 (some 0) = .ok r ∧
      r.tio.c_ispeed = 0 ∧ (r.tio.c_cflag >>> IBSHIFT) &&& CBAUD = BOTHER :=
  ⟨(c7_zero_input ⟨false, false⟩ ⟨0, 0, 0⟩ ⟨0, 0, 0⟩ 9600 (by decide)).1 rfl,
   (c7_zero_input ⟨true, false⟩ ⟨0, 0, 0⟩ ⟨0, 0, 0⟩ 9600 (by decide)).2.1 rfl rfl,
   (c7_zero_input ⟨true, true⟩ ⟨0, 0, 0⟩ ⟨0, 0, 0⟩ 9600 (by decide)).2.2 rfl rfl⟩

/-- Claim C8: when the input rate equals the output rate (including the
two-argument form), with split encoding available the written snapshot
holds `B0` in the shifted input field, and `ispeed = 0` when extended
termios is available. -/
theorem c8_mirror (caps : Caps) (tio0 : Termios) (ser? : Option SerialStruct)
    (n : Nat) (nIn? : Option Nat) (r : ConfigResult)
    (hin : nIn? = none ∨ nIn? = some n) (hib : caps.ibshift = true)
    (hok : configure caps tio0 ser? n nIn? = .ok r) :
    (r.tio.c_cflag >>> IBSHIFT) &&& CBAUD = B0 ∧
    (caps.bother = true → r.tio.c_ispeed = 0) := by
  obtain ⟨bn1, n3, bn3, hco, hstage, hsi⟩ := configure_ok_elim caps tio0 ser? n nIn? r hok
  have hcases := choose_output_cases caps ser? n bn1 r.ser? hco
  have hsub : bn1 &&& CBAUD = bn1 := by
    rcases hcases with ⟨-, hc⟩ | ⟨-, -, -, hc⟩ | ⟨-, -, -, hc⟩
    · rw [hc]
      exact map_n_to_bn_land n
    · rw [hc]
      decide
    · rw [hc]
      decide
  have hcf : (tio0.c_cflag &&& compl32 CBAUD ||| bn1) &&& CBAUD = bn1 :=
    setField_get tio0.c_cflag CBAUD bn1 (by decide) hsub
  have hstage2 : n3 = n ∧ bn3 = bn1 := by
    rcases hstage with ⟨-, hn3, hbn3⟩ | ⟨n2, hn2, hn3, hci⟩
    · exact ⟨hn3, hbn3⟩
    · rcases hin with hnone | hsome
      · rw [hnone] at hn2
        exact absurd hn2 (by simp)
      · rw [hsome] at hn2
        obtain rfl := Option.some.inj hn2
        rw [choose_input_same caps n _ bn1 hcf hcases] at hci
        exact ⟨hn3, (Except.ok.inj hci).symm⟩
  obtain ⟨hn3, hbn3⟩ := hstage2
  rw [hn3, hbn3] at hsi
  have hosp : caps.bother = true → bn1 = BOTHER →
      (if caps.bother then n else tio0.c_ospeed) = n := by
    intro hb _
    rw [hb, if_pos rfl]
  rw [set_input_field_mirror caps _ _ _ n bn1 hcf hosp, hib, if_pos rfl] at hsi
  have htio := Except.ok.inj hsi
  constructor
  · rw [← htio]
    exact getShifted_ib _ CBAUD B0 (by decide) (by decide)
  · intro hb
    rw [← htio]
    simp [hb]

/-- Witness for C8 at the two-argument form, rate 9600, full capabilities. -/
theorem c8_witness :
    ((⟨⟨13, 9600, 0⟩, none⟩ : ConfigResult).tio.c_cflag >>> IBSHIFT) &&& CBAUD = B0 ∧
    ((⟨true, true⟩ : Caps).bother = true →
      (⟨⟨13, 9600, 0⟩, none⟩ : ConfigResult).tio.c_ispeed = 0) :=
  c8_mirror ⟨true, true⟩ ⟨0, 0, 0⟩ none 9600 none ⟨⟨13, 9600, 0⟩, none⟩
    (Or.inl rfl) rfl (by decide)

end Baudrate
